import Mathlib

/-!
Verification of the face-recognition attendance system
(`face_recognition_module.py`, `db_operations.py`, `app.py`).

Shallow embedding conventions:

* A face descriptor (`Desc`) is a list of rationals.  The library's
  `face_recognition.face_distance` computes the Euclidean norm
  `sqrt (Σ (aᵢ - bᵢ)²)`; since `sqrt` is strictly monotone on nonnegative
  numbers, we embed distances by their *squares* (`faceDistanceSq`):
  `sqrt d ≤ t ↔ (0 ≤ t ∧ d ≤ t²)` for `d ≥ 0`, and `argmin` over square
  distances coincides with `argmin` over distances.  This keeps every
  definition executable over `ℚ` while preserving all comparisons the
  source performs.

* The MySQL database is a state machine `DBState`.  `conn = none` models a
  `DatabaseManager` whose `connect()` failed (in Python `self.connection`
  stays `None`); every later method then evaluates `None.cursor(...)`,
  which raises `AttributeError` — an exception *not* caught by the
  `except mysql.connector.Error` handlers — modelled as
  `Except.error .attributeError`.  Per-query `mysql.connector.Error`
  failures on a live connection (which *are* caught) are injected by a
  `script : List Bool` consumed one entry per query: `true` means the
  query raises a caught MySQL error and mutates nothing.

* `users.id` is `AUTO_INCREMENT` (starts at 1, see `db_setup.py`), modelled
  by a `nextUserId` counter; `cursor.lastrowid` returns the id just
  assigned.  Python's truthiness test `if user_id:` is embedded as
  `uid ≠ 0` on the returned id.

* The descriptor extractor (`face_locations` / `face_encodings`) is an
  external oracle: its per-image output is passed in as a list of
  (bounding box, descriptor) pairs, parallel by the library's contract.
-/

namespace FaceRec

set_option synthInstance.maxSize 512

/-- A face descriptor: fixed-length vector of reals, embedded over `ℚ`. -/
abbrev Desc := List ℚ

/-- A bounding box `(top, right, bottom, left)` as produced by
`face_recognition.face_locations`. -/
abbrev Loc := Nat × Nat × Nat × Nat

/-- Squared Euclidean distance between two descriptors
(`face_recognition.face_distance` returns its square root; see module
comment for why the square is the faithful executable embedding). -/
def faceDistanceSq (a b : Desc) : ℚ :=
  (List.zipWith (fun x y => (x - y) ^ 2) a b).sum

/-- `face_recognition.compare_faces(known, enc, tolerance)`:
elementwise `face_distance(known, enc) <= tolerance`.  For real `t`,
`sqrt d ≤ t ↔ 0 ≤ t ∧ d ≤ t * t` (as `d ≥ 0`), which is the form used
here over square distances. -/
def compareFaces (known : List Desc) (enc : Desc) (tol : ℚ) : List Bool :=
  known.map (fun k => decide (0 ≤ tol ∧ faceDistanceSq k enc ≤ tol * tol))

/-- `np.argmin`: index of the first occurrence of the minimum value.
On the empty list (never reached under the source's `len > 0` guard)
it returns 0. -/
def argminIdx : List ℚ → Nat
  | [] => 0
  | [_] => 0
  | x :: y :: ys =>
    if (y :: ys).getD (argminIdx (y :: ys)) 0 < x then argminIdx (y :: ys) + 1
    else 0

/-- A Python exception escaping the embedded code uncaught:
`AttributeError` from calling a method on `None`, or `IndexError` from
list indexing out of range.  (`mysql.connector.Error` never appears here
because every DB method catches it.) -/
inductive PyErr where
  | attributeError
  | indexError
deriving DecidableEq

/-- Decidable equality of `Except` results, so that concrete runs of the
embedded operations can be checked by `decide`. -/
instance {ε α : Type} [DecidableEq ε] [DecidableEq α] :
    DecidableEq (Except ε α)
  | .error a, .error b =>
    if h : a = b then .isTrue (by rw [h])
    else .isFalse (by simp [h])
  | .error _, .ok _ => .isFalse (by simp)
  | .ok _, .error _ => .isFalse (by simp)
  | .ok a, .ok b =>
    if h : a = b then .isTrue (by rw [h])
    else .isFalse (by simp [h])

/-- State behind a live MySQL connection: the three tables of
`db_setup.py` plus the `AUTO_INCREMENT` counter for `users.id` and the
fault-injection script for caught per-query MySQL errors. -/
structure ConnState where
  nextUserId : Nat
  users : List (Nat × String)
  encodings : List (Nat × Desc)
  attendance : List Nat
  script : List Bool
deriving DecidableEq

/-- Consume one entry of the fault script: `true` means the next query
raises a (caught) `mysql.connector.Error`. An exhausted script means no
further failures. -/
def ConnState.step (c : ConnState) : Bool × ConnState :=
  match c.script with
  | [] => (false, c)
  | b :: rest => (b, { c with script := rest })

/-- `DatabaseManager`: `conn = none` iff `connect()` failed and
`self.connection` is `None`. -/
structure DBState where
  conn : Option ConnState
deriving DecidableEq

/-- One row of `DatabaseManager.get_all_face_encodings`'s result:
a dict `{id, name, encoding}` from the `users ⋈ face_encodings` join. -/
structure FaceData where
  id : Nat
  name : String
  encoding : Desc
deriving DecidableEq

/-- The SQL join `SELECT u.id, u.name, f.encoding FROM users u JOIN
face_encodings f ON u.id = f.user_id`, in nested-loop order. -/
def dbJoin (c : ConnState) : List FaceData :=
  c.users.flatMap (fun u =>
    c.encodings.filterMap (fun fe =>
      if fe.1 = u.1 then some ⟨u.1, u.2, fe.2⟩ else none))

/-- `DatabaseManager.add_user(name)`: INSERT into `users`, return
`lastrowid`; on a caught MySQL error print and return `None`.
On a `None` connection, `self.connection.cursor()` raises an uncaught
`AttributeError`. -/
def DBState.add_user (db : DBState) (name : String) :
    Except PyErr (Option Nat × DBState) :=
  match db.conn with
  | none => .error .attributeError
  | some c =>
    let (fail, c1) := c.step
    if fail then .ok (none, ⟨some c1⟩)
    else
      .ok (some c1.nextUserId,
        ⟨some { c1 with
                 users := c1.users ++ [(c1.nextUserId, name)]
                 nextUserId := c1.nextUserId + 1 }⟩)

/-- `DatabaseManager.add_face_encoding(user_id, face_encoding)`: INSERT
into `face_encodings`, return `True`; on a caught MySQL error return
`False`; uncaught `AttributeError` on a `None` connection. -/
def DBState.add_face_encoding (db : DBState) (uid : Nat) (enc : Desc) :
    Except PyErr (Bool × DBState) :=
  match db.conn with
  | none => .error .attributeError
  | some c =>
    let (fail, c1) := c.step
    if fail then .ok (false, ⟨some c1⟩)
    else .ok (true, ⟨some { c1 with encodings := c1.encodings ++ [(uid, enc)] }⟩)

/-- `DatabaseManager.record_attendance(user_id)`: INSERT into
`attendance`, return `True`; on a caught MySQL error return `False`;
uncaught `AttributeError` on a `None` connection. -/
def DBState.record_attendance (db : DBState) (uid : Nat) :
    Except PyErr (Bool × DBState) :=
  match db.conn with
  | none => .error .attributeError
  | some c =>
    let (fail, c1) := c.step
    if fail then .ok (false, ⟨some c1⟩)
    else .ok (true, ⟨some { c1 with attendance := c1.attendance ++ [uid] }⟩)

/-- `DatabaseManager.get_all_face_encodings()`: SELECT the join; on a
caught MySQL error return `[]`; on a `None` connection
`self.connection.cursor(dictionary=True)` raises an uncaught
`AttributeError`. -/
def DBState.get_all_face_encodings (db : DBState) :
    Except PyErr (List FaceData × DBState) :=
  match db.conn with
  | none => .error .attributeError
  | some c =>
    let (fail, c1) := c.step
    if fail then .ok ([], ⟨some c1⟩)
    else .ok (dbJoin c1, ⟨some c1⟩)

/-- In-memory state of `FaceRecognitionSystem`: the database handle and
the three parallel gallery lists. -/
structure FaceRecognitionSystem where
  db : DBState
  known_face_encodings : List Desc
  known_face_names : List String
  known_face_ids : List Nat
deriving DecidableEq

/-- `FaceRecognitionSystem.load_known_faces`: bulk-fetch all persisted
(id, name, encoding) rows and rebuild the three parallel lists. -/
def load_known_faces (st : FaceRecognitionSystem) :
    Except PyErr FaceRecognitionSystem :=
  match st.db.get_all_face_encodings with
  | .error e => .error e
  | .ok (face_data, db') =>
    .ok { db := db'
          known_face_encodings := face_data.map (·.encoding)
          known_face_names := face_data.map (·.name)
          known_face_ids := face_data.map (·.id) }

/-- `FaceRecognitionSystem.__init__`: empty gallery lists, then
`load_known_faces` against the freshly constructed `DatabaseManager`
(whose `connect()` outcome is the given `db`). -/
def FaceRecognitionSystem.init (db : DBState) :
    Except PyErr FaceRecognitionSystem :=
  load_known_faces
    { db := db
      known_face_encodings := []
      known_face_names := []
      known_face_ids := [] }

/-- `FaceRecognitionSystem.register_new_face(name, face_image)`.  The
extractor's output on the image is the oracle input `faces`
(bounding box, descriptor pairs; parallel by the library contract).
Returns the `(success, message)` pair and the successor state. -/
def register_new_face (st : FaceRecognitionSystem) (name : String)
    (faces : List (Loc × Desc)) :
    Except PyErr (Bool × String × FaceRecognitionSystem) :=
  match faces with
  | [] => .ok (false, "No face detected in the image", st)
  | _ :: _ :: _ =>
    .ok (false, "Multiple faces detected. Please provide an image with only one face", st)
  | [f] =>
    match st.db.add_user name with
    | .error e => .error e
    | .ok (some uid, db1) =>
      if uid ≠ 0 then
        match db1.add_face_encoding uid f.2 with
        | .error e => .error e
        | .ok (true, db2) =>
          .ok (true, "User " ++ name ++ " registered successfully",
            { st with
              db := db2
              known_face_encodings := st.known_face_encodings ++ [f.2]
              known_face_names := st.known_face_names ++ [name]
              known_face_ids := st.known_face_ids ++ [uid] })
        | .ok (false, db2) => .ok (false, "Failed to register user", { st with db := db2 })
      else .ok (false, "Failed to register user", { st with db := db1 })
    | .ok (none, db1) => .ok (false, "Failed to register user", { st with db := db1 })

/-- The per-encoding loop body of `recognize_faces`: for each detected
descriptor, `compare_faces` with the hard-coded `tolerance=0.6`, distances
to all known encodings, `np.argmin`, and — when the best match clears the
tolerance — lookup of name/id (Python list indexing, `IndexError` if out
of range) plus `record_attendance`.  Output lists are built in loop
order. -/
def recognizeLoop (known : List Desc) (names : List String) (ids : List Nat) :
    List Desc → DBState →
    Except PyErr (List String × List (Option Nat) × DBState)
  | [], db => .ok ([], [], db)
  | enc :: rest, db =>
    let matchesList := compareFaces known enc (3/5)
    let dists := known.map (fun k => faceDistanceSq k enc)
    if dists.length > 0 then
      let best := argminIdx dists
      if matchesList.getD best false then
        match names[best]?, ids[best]? with
        | some nm, some uid =>
          match db.record_attendance uid with
          | .error e => .error e
          | .ok (_, db1) =>
            match recognizeLoop known names ids rest db1 with
            | .error e => .error e
            | .ok (ns, is, db2) => .ok (nm :: ns, some uid :: is, db2)
        | _, _ => .error .indexError
      else
        match recognizeLoop known names ids rest db with
        | .error e => .error e
        | .ok (ns, is, db2) => .ok ("Unknown" :: ns, none :: is, db2)
    else
      match recognizeLoop known names ids rest db with
      | .error e => .error e
      | .ok (ns, is, db2) => .ok ("Unknown" :: ns, none :: is, db2)

/-- `FaceRecognitionSystem.recognize_faces(frame)`.  The extractor's
output on the frame is the oracle input `faces`; returns
`(face_locations, face_names, recognized_ids)` and the successor
state. -/
def recognize_faces (st : FaceRecognitionSystem) (faces : List (Loc × Desc)) :
    Except PyErr (List Loc × List String × List (Option Nat) × FaceRecognitionSystem) :=
  match recognizeLoop st.known_face_encodings st.known_face_names
      st.known_face_ids (faces.map Prod.snd) st.db with
  | .error e => .error e
  | .ok (ns, is, db') => .ok (faces.map Prod.fst, ns, is, { st with db := db' })

/-- Modelled from the spec: the recognition loop with `tolerance` as "a
configurable `tolerance` (default 0.6)" — the matching algorithm the spec
describes, where the caller-supplied tolerance decides `match_ok`.  The
source (`recognize_faces`) instead hard-codes `tolerance=0.6`; this
definition exists to compare the two. -/
def recognizeLoopTol (tol : ℚ) (known : List Desc) (names : List String)
    (ids : List Nat) :
    List Desc → DBState →
    Except PyErr (List String × List (Option Nat) × DBState)
  | [], db => .ok ([], [], db)
  | enc :: rest, db =>
    let matchesList := compareFaces known enc tol
    let dists := known.map (fun k => faceDistanceSq k enc)
    if dists.length > 0 then
      let best := argminIdx dists
      if matchesList.getD best false then
        match names[best]?, ids[best]? with
        | some nm, some uid =>
          match db.record_attendance uid with
          | .error e => .error e
          | .ok (_, db1) =>
            match recognizeLoopTol tol known names ids rest db1 with
            | .error e => .error e
            | .ok (ns, is, db2) => .ok (nm :: ns, some uid :: is, db2)
        | _, _ => .error .indexError
      else
        match recognizeLoopTol tol known names ids rest db with
        | .error e => .error e
        | .ok (ns, is, db2) => .ok ("Unknown" :: ns, none :: is, db2)
    else
      match recognizeLoopTol tol known names ids rest db with
      | .error e => .error e
      | .ok (ns, is, db2) => .ok ("Unknown" :: ns, none :: is, db2)

/-- Modelled from the spec: `recognize` with a caller-supplied tolerance
(see `recognizeLoopTol`). -/
def recognize_facesTol (tol : ℚ) (st : FaceRecognitionSystem)
    (faces : List (Loc × Desc)) :
    Except PyErr (List Loc × List String × List (Option Nat) × FaceRecognitionSystem) :=
  match recognizeLoopTol tol st.known_face_encodings st.known_face_names
      st.known_face_ids (faces.map Prod.snd) st.db with
  | .error e => .error e
  | .ok (ns, is, db') => .ok (faces.map Prod.fst, ns, is, { st with db := db' })

/-- Equal length of the three parallel gallery lists (the implicit
invariant behind `recognize_faces`'s `names[best]` / `ids[best]`
indexing). -/
def galleryConsistent (st : FaceRecognitionSystem) : Prop :=
  st.known_face_encodings.length = st.known_face_names.length ∧
  st.known_face_encodings.length = st.known_face_ids.length

/-- Well-formedness of one `(name, id)` output slot of `recognize_faces`
relative to the gallery: an empty slot is the literal `"Unknown"` with no
id, and a filled slot carries the name and id of one gallery index. -/
def outputOk (names : List String) (ids : List Nat) :
    String × Option Nat → Prop
  | (nm, none) => nm = "Unknown"
  | (nm, some uid) => ∃ i : Nat, names[i]? = some nm ∧ ids[i]? = some uid

/-- Database state with an open connection, empty tables, fresh
`AUTO_INCREMENT` counter and no injected query failures. -/
def connEmpty : ConnState := ⟨1, [], [], [], []⟩

/-- Concrete gallery with entries `A` (at distance 0.1 from the probe
`[0]`) and `B` (at distance 0.5). -/
def galleryAB : FaceRecognitionSystem :=
  { db := ⟨some connEmpty⟩
    known_face_encodings := [[(1 : ℚ)/10], [(1 : ℚ)/2]]
    known_face_names := ["A", "B"]
    known_face_ids := [1, 2] }

/-- Concrete gallery with a single entry `C` at distance 0.7 from the
probe `[0]`. -/
def galleryC : FaceRecognitionSystem :=
  { db := ⟨some connEmpty⟩
    known_face_encodings := [[(7 : ℚ)/10]]
    known_face_names := ["C"]
    known_face_ids := [3] }

/-- Concrete gallery whose single registered person is displayed as the
literal string `"Unknown"`, at distance 0 from the probe `[0]`. -/
def galleryNamedUnknown : FaceRecognitionSystem :=
  { db := ⟨some connEmpty⟩
    known_face_encodings := [[(0 : ℚ)]]
    known_face_names := ["Unknown"]
    known_face_ids := [7] }

/-! ### List indexing helpers -/

lemma getD_map_of_lt {α β : Type} (f : α → β) :
    ∀ (l : List α) (j : Nat), j < l.length → ∀ (d : α) (d' : β),
      (l.map f).getD j d' = f (l.getD j d)
  | [], j, h, _, _ => absurd h (by simp)
  | a :: l, 0, _, _, _ => rfl
  | a :: l, j+1, h, d, d' => by
    simpa using getD_map_of_lt f l j (by simpa using h) d d'

lemma getElem?_eq_getD {α : Type} :
    ∀ (l : List α) (j : Nat), j < l.length → ∀ d : α,
      l[j]? = some (l.getD j d)
  | [], j, h, _ => absurd h (by simp)
  | a :: l, 0, _, _ => by simp
  | a :: l, j+1, h, d => by
    simpa using getElem?_eq_getD l j (by simpa using h) d

lemma getD_mem {α : Type} :
    ∀ (l : List α) (j : Nat), j < l.length → ∀ d : α, l.getD j d ∈ l
  | [], j, h, _ => absurd h (by simp)
  | a :: l, 0, _, _ => List.mem_cons_self a l
  | a :: l, j+1, h, d => by
    simpa using Or.inr (getD_mem l j (by simpa using h) d)

/-! ### `argminIdx` is `np.argmin`: first index of the minimum value -/

lemma argminIdx_lt : ∀ (l : List ℚ), l ≠ [] → argminIdx l < l.length
  | [], h => absurd rfl h
  | [_], _ => by simp [argminIdx]
  | x :: y :: ys, _ => by
    have ih := argminIdx_lt (y :: ys) (by simp)
    simp only [argminIdx]
    split
    · simpa using Nat.succ_lt_succ ih
    · simp

lemma argminIdx_le :
    ∀ (l : List ℚ) (j : Nat), j < l.length →
      l.getD (argminIdx l) 0 ≤ l.getD j 0
  | [], j, h => absurd h (by simp)
  | [x], 0, _ => le_refl _
  | [x], j+1, h => absurd h (by simp)
  | x :: y :: ys, j, h => by
    simp only [argminIdx]
    split
    · rename_i hc
      cases j with
      | zero => simpa using le_of_lt hc
      | succ k =>
        have := argminIdx_le (y :: ys) k (by simpa using h)
        simpa using this
    · rename_i hc
      rw [not_lt] at hc
      cases j with
      | zero => simp
      | succ k =>
        have hk := argminIdx_le (y :: ys) k (by simpa using h)
        simpa using le_trans hc hk

lemma argminIdx_first :
    ∀ (l : List ℚ) (j : Nat), j < argminIdx l →
      l.getD (argminIdx l) 0 < l.getD j 0
  | [], j, h => by simp [argminIdx] at h
  | [x], j, h => by simp [argminIdx] at h
  | x :: y :: ys, j, h => by
    simp only [argminIdx] at h ⊢
    by_cases hc : (y :: ys).getD (argminIdx (y :: ys)) 0 < x
    · rw [if_pos hc] at h ⊢
      cases j with
      | zero => simpa using hc
      | succ k =>
        have hk := argminIdx_first (y :: ys) k (Nat.lt_of_succ_lt_succ h)
        simpa using hk
    · rw [if_neg hc] at h
      exact absurd h (Nat.not_lt_zero j)

/-! ### Claim theorems -/

/-- C5: for every image in which the extractor detects zero faces,
`register_new_face` fails with the no-face-detected error and returns the
state unchanged: neither the gallery lists nor the database are
modified. -/
theorem register_zero_faces_unchanged (st : FaceRecognitionSystem)
    (name : String) :
    register_new_face st name [] =
      .ok (false, "No face detected in the image", st) := rfl

/-- C6: for every image in which the extractor detects two or more faces,
`register_new_face` fails with the multiple-faces error and returns the
state unchanged: neither the gallery lists nor the database are
modified. -/
theorem register_multiple_faces_unchanged (st : FaceRecognitionSystem)
    (name : String) (f g : Loc × Desc) (rest : List (Loc × Desc)) :
    register_new_face st name (f :: g :: rest) =
      .ok (false,
        "Multiple faces detected. Please provide an image with only one face",
        st) := rfl

/-- C7: when the persistent store is unreachable at startup (`connect()`
failed, so `self.connection` is `None`), initialization does NOT complete
with an empty gallery: `get_all_face_encodings` evaluates
`None.cursor(...)`, raising an `AttributeError` that the
`except mysql.connector.Error` handler does not catch, so the load
raises.  Only a MySQL-level query failure on a live connection (second
conjunct) yields the silently-empty gallery the spec describes. -/
theorem init_unreachable_store_raises :
    FaceRecognitionSystem.init ⟨none⟩ = .error .attributeError ∧
    FaceRecognitionSystem.init ⟨some { connEmpty with script := [true] }⟩ =
      .ok { db := ⟨some connEmpty⟩
            known_face_encodings := []
            known_face_names := []
            known_face_ids := [] } := ⟨rfl, rfl⟩

lemma recognizeLoop_eq_tol (known : List Desc) (names : List String)
    (ids : List Nat) :
    ∀ (encs : List Desc) (db : DBState),
      recognizeLoop known names ids encs db =
        recognizeLoopTol (3/5) known names ids encs db
  | [], _ => rfl
  | enc :: rest, db => by
    have ih := recognizeLoop_eq_tol known names ids rest
    simp only [recognizeLoop, recognizeLoopTol, ih]

/-- C8 (amended): the matching threshold of `recognize_faces` is the
constant `0.6` hard-coded at the `compare_faces` call; the code behaves
exactly like the spec's tolerance-parameterized matcher instantiated at
`0.6`, and no caller-supplied tolerance reaches it. -/
theorem recognize_tolerance_hardcoded (st : FaceRecognitionSystem)
    (faces : List (Loc × Desc)) :
    recognize_faces st faces = recognize_facesTol (3/5) st faces := by
  unfold recognize_faces recognize_facesTol
  rw [recognizeLoop_eq_tol]

/-- C8 counterexample: the gallery holds one entry at true distance 0.7
from the probe.  A caller supplies tolerance 1.0 (the UI slider's
maximum).  Under the spec's claim the entry (distance 0.7 ≤ 1.0) must
match, as the spec-modelled matcher confirms; the code instead labels the
face "Unknown" with no attendance write, because it decides `match_ok`
with its hard-coded 0.6, not the caller-supplied value. -/
theorem recognize_ignores_caller_tolerance :
    recognize_faces galleryC [((0, 0, 0, 0), [0])] =
      .ok ([(0, 0, 0, 0)], ["Unknown"], [none], galleryC) ∧
    recognize_facesTol 1 galleryC [((0, 0, 0, 0), [0])] =
      .ok ([(0, 0, 0, 0)], ["C"], [some 3],
        { galleryC with
            db := ⟨some { connEmpty with attendance := [3] }⟩ }) := by
  constructor
  · norm_num [recognize_faces, recognizeLoop, compareFaces, faceDistanceSq,
      argminIdx, galleryC, connEmpty, List.getD_cons_zero]
  · norm_num [recognize_facesTol, recognizeLoopTol, compareFaces,
      faceDistanceSq, argminIdx, galleryC, connEmpty,
      DBState.record_attendance, ConnState.step, List.getD_cons_zero]

/-- C10 counterexample: a person registered under the display name
`"Unknown"` (gallery entry at distance 0) is recognized with their real
id, so the returned name is the literal `"Unknown"` while the returned id
is not `None` — refuting "the id is None exactly when the name is
Unknown". -/
theorem recognize_unknown_name_with_id :
    recognize_faces galleryNamedUnknown [((0, 0, 0, 0), [0])] =
      .ok ([(0, 0, 0, 0)], ["Unknown"], [some 7],
        { galleryNamedUnknown with
            db := ⟨some { connEmpty with attendance := [7] }⟩ }) ∧
    ¬ (((some 7 : Option Nat) = none) ↔ ("Unknown" = "Unknown")) := by
  constructor
  · norm_num [recognize_faces, recognizeLoop, compareFaces, faceDistanceSq,
      argminIdx, galleryNamedUnknown, connEmpty, DBState.record_attendance,
      ConnState.step, List.getD_cons_zero]
  · simp

lemma recognizeLoop_all_far (known : List Desc) (names : List String)
    (ids : List Nat) :
    ∀ (encs : List Desc) (db : DBState),
      (∀ e ∈ encs, ∀ g ∈ known,
        (3/5 : ℚ) * (3/5) < faceDistanceSq g e) →
      recognizeLoop known names ids encs db =
        .ok (List.replicate encs.length "Unknown",
             List.replicate encs.length none, db)
  | [], db, _ => rfl
  | enc :: rest, db, h => by
    have ih := recognizeLoop_all_far known names ids rest db
      (fun e he g hg => h e (List.mem_cons_of_mem _ he) g hg)
    have hhead := h enc (List.mem_cons_self _ _)
    cases known with
    | nil => simp [recognizeLoop, ih, List.replicate_succ]
    | cons k ks =>
      have hlen : argminIdx ((k :: ks).map (fun g => faceDistanceSq g enc)) <
          (k :: ks).length := by
        simpa using argminIdx_lt ((k :: ks).map (fun g => faceDistanceSq g enc))
          (by simp)
      have hm : (compareFaces (k :: ks) enc (3/5)).getD
          (argminIdx ((k :: ks).map (fun g => faceDistanceSq g enc)))
          false = false := by
        rw [compareFaces, getD_map_of_lt _ _ _ hlen [] false]
        refine decide_eq_false ?_
        rintro ⟨-, hle⟩
        exact absurd hle (not_le.mpr (hhead _ (getD_mem _ _ hlen [])))
      have hm' : (compareFaces (k :: ks) enc (3/5))[argminIdx
          (faceDistanceSq k enc ::
            List.map (fun g => faceDistanceSq g enc) ks)]?.getD false
          = false := by
        simpa [List.getD_eq_getElem?_getD] using hm
      simp [recognizeLoop, hm', ih, List.replicate_succ]

/-- C2: for every gallery state (including the empty gallery) and every
frame all of whose detected descriptors lie at distance strictly greater
than the 0.6 tolerance from every gallery entry (in square form:
`0.36 < faceDistanceSq`), `recognize_faces` labels every face `"Unknown"`
with no id and performs no attendance write — the whole state, database
included, is returned unchanged.  The empty gallery is the instance where
the distance hypothesis is vacuous. -/
theorem recognize_no_match_unknown (st : FaceRecognitionSystem)
    (faces : List (Loc × Desc))
    (hfar : ∀ f ∈ faces, ∀ g ∈ st.known_face_encodings,
        (3/5 : ℚ) * (3/5) < faceDistanceSq g f.2) :
    recognize_faces st faces =
      .ok (faces.map Prod.fst, List.replicate faces.length "Unknown",
           List.replicate faces.length none, st) := by
  unfold recognize_faces
  rw [recognizeLoop_all_far st.known_face_encodings st.known_face_names
    st.known_face_ids (faces.map Prod.snd) st.db ?_]
  · simp
  · intro e he g hg
    rcases List.mem_map.mp he with ⟨f, hf, rfl⟩
    exact hfar f hf g hg

/-- C2 witness: the spec's scenario — empty gallery, frame with two
detected faces → two `"Unknown"` labels, no ids, no attendance writes,
state unchanged. -/
theorem recognize_no_match_unknown_witness :
    recognize_faces
      { db := ⟨some connEmpty⟩
        known_face_encodings := []
        known_face_names := []
        known_face_ids := [] }
      [((0, 0, 0, 0), [0]), ((1, 1, 1, 1), [5])] =
      .ok ([(0, 0, 0, 0), (1, 1, 1, 1)], ["Unknown", "Unknown"],
        [none, none],
        { db := ⟨some connEmpty⟩
          known_face_encodings := []
          known_face_names := []
          known_face_ids := [] }) := by
  have h := recognize_no_match_unknown
    { db := ⟨some connEmpty⟩
      known_face_encodings := []
      known_face_names := []
      known_face_ids := [] }
    [((0, 0, 0, 0), [0]), ((1, 1, 1, 1), [5])] (by simp)
  simpa using h

/-- C3: with exactly one detected face and both persistence writes
succeeding (live connection, no injected query failures, and an
`AUTO_INCREMENT` id ≥ 1 as MySQL guarantees), `register_new_face` returns
success, the store gains the identity row and the descriptor row, and the
gallery grows by exactly one entry whose descriptor is the extractor's
output and whose identity is the id the store assigned. -/
theorem register_single_face_success (st : FaceRecognitionSystem)
    (c : ConnState) (name : String) (f : Loc × Desc)
    (hconn : st.db = ⟨some c⟩) (hscript : c.script = [])
    (hid : 1 ≤ c.nextUserId) :
    register_new_face st name [f] =
      .ok (true, "User " ++ name ++ " registered successfully",
        { db := ⟨some { c with
                  users := c.users ++ [(c.nextUserId, name)]
                  encodings := c.encodings ++ [(c.nextUserId, f.2)]
                  nextUserId := c.nextUserId + 1 }⟩
          known_face_encodings := st.known_face_encodings ++ [f.2]
          known_face_names := st.known_face_names ++ [name]
          known_face_ids := st.known_face_ids ++ [c.nextUserId] }) ∧
    (st.known_face_encodings ++ [f.2]).length =
      st.known_face_encodings.length + 1 := by
  have hne : c.nextUserId ≠ 0 := by omega
  refine ⟨?_, by simp⟩
  simp [register_new_face, hconn, DBState.add_user,
    DBState.add_face_encoding, ConnState.step, hscript, hne]

/-- C3 witness: registering "Bob" with descriptor `[7]` on the two-entry
gallery with a fresh store: success, id 1 assigned by the store, gallery
grows from two entries to three. -/
theorem register_single_face_success_witness :
    register_new_face galleryAB "Bob" [((0, 0, 0, 0), [7])] =
      .ok (true, "User Bob registered successfully",
        { db := ⟨some { connEmpty with
                  users := connEmpty.users ++ [(connEmpty.nextUserId, "Bob")]
                  encodings :=
                    connEmpty.encodings ++ [(connEmpty.nextUserId, [7])]
                  nextUserId := connEmpty.nextUserId + 1 }⟩
          known_face_encodings := galleryAB.known_face_encodings ++ [[7]]
          known_face_names := galleryAB.known_face_names ++ ["Bob"]
          known_face_ids :=
            galleryAB.known_face_ids ++ [connEmpty.nextUserId] }) ∧
    (galleryAB.known_face_encodings ++ [[7]]).length =
      galleryAB.known_face_encodings.length + 1 :=
  register_single_face_success galleryAB connEmpty "Bob" ((0, 0, 0, 0), [7])
    rfl rfl (by decide)

/-- C4: if persisting the identity row fails, or the identity row
succeeds and persisting the descriptor row fails, `register_new_face`
returns the persistence failure and the in-memory gallery lists are left
exactly as they were (the entry is appended only after both writes
succeed); only the database component of the state may differ. -/
theorem register_persistence_failure (st : FaceRecognitionSystem)
    (c : ConnState) (name : String) (f : Loc × Desc)
    (b1 b2 : Bool) (rest : List Bool)
    (hconn : st.db = ⟨some c⟩) (hscript : c.script = b1 :: b2 :: rest)
    (hid : 1 ≤ c.nextUserId) (hfail : b1 = true ∨ b2 = true) :
    ∃ db', register_new_face st name [f] =
      .ok (false, "Failed to register user", { st with db := db' }) := by
  cases b1 with
  | true =>
    refine ⟨⟨some { c with script := b2 :: rest }⟩, ?_⟩
    simp [register_new_face, hconn, DBState.add_user, ConnState.step, hscript]
  | false =>
    have hb2 : b2 = true := hfail.resolve_left (by simp)
    subst hb2
    have hne : c.nextUserId ≠ 0 := by omega
    refine ⟨⟨some { c with
        users := c.users ++ [(c.nextUserId, name)]
        nextUserId := c.nextUserId + 1
        script := rest }⟩, ?_⟩
    simp [register_new_face, hconn, DBState.add_user,
      DBState.add_face_encoding, ConnState.step, hscript, hne]

/-- C4 witness: the identity-row INSERT raises a MySQL error on an empty
gallery; registration fails with the persistence message and the gallery
lists are unchanged. -/
theorem register_persistence_failure_witness :
    ∃ db', register_new_face
      { db := ⟨some { connEmpty with script := [true, false] }⟩
        known_face_encodings := []
        known_face_names := []
        known_face_ids := [] } "Bob" [((0, 0, 0, 0), [7])] =
      .ok (false, "Failed to register user",
        { { db := ⟨some { connEmpty with script := [true, false] }⟩
            known_face_encodings := []
            known_face_names := []
            known_face_ids := [] : FaceRecognitionSystem } with db := db' }) :=
  register_persistence_failure
    { db := ⟨some { connEmpty with script := [true, false] }⟩
      known_face_encodings := []
      known_face_names := []
      known_face_ids := [] }
    { connEmpty with script := [true, false] } "Bob" ((0, 0, 0, 0), [7])
    true false [] rfl rfl (by decide) (Or.inl rfl)

set_option maxRecDepth 4000

/-- C1: with a non-empty gallery (parallel lists, live connection, no
injected query failures) and a detected face having some gallery entry
within the 0.6 tolerance (square form: `faceDistanceSq ≤ 0.36`),
`recognize_faces` selects the index of globally minimum distance —
no entry is closer, and every earlier entry is strictly farther
(`np.argmin` first-occurrence tie-breaking) — labels the face with that
entry's name and id, and appends exactly one attendance record for that
id. -/
theorem recognize_selects_argmin (st : FaceRecognitionSystem)
    (c : ConnState) (loc : Loc) (probe : Desc)
    (hconn : st.db = ⟨some c⟩) (hscript : c.script = [])
    (hne : st.known_face_encodings ≠ [])
    (hlen1 : st.known_face_names.length = st.known_face_encodings.length)
    (hlen2 : st.known_face_ids.length = st.known_face_encodings.length)
    (hclose : ∃ g ∈ st.known_face_encodings,
        faceDistanceSq g probe ≤ (3/5 : ℚ) * (3/5)) :
    ∃ i, i < st.known_face_encodings.length ∧
      (∀ j, j < st.known_face_encodings.length →
        faceDistanceSq (st.known_face_encodings.getD i []) probe ≤
          faceDistanceSq (st.known_face_encodings.getD j []) probe) ∧
      (∀ j, j < i →
        faceDistanceSq (st.known_face_encodings.getD i []) probe <
          faceDistanceSq (st.known_face_encodings.getD j []) probe) ∧
      recognize_faces st [(loc, probe)] =
        .ok ([loc], [st.known_face_names.getD i "Unknown"],
          [some (st.known_face_ids.getD i 0)],
          { st with db := ⟨some { c with attendance :=
              c.attendance ++ [st.known_face_ids.getD i 0] }⟩ }) := by
  have hdne :
      List.map (fun k => faceDistanceSq k probe) st.known_face_encodings
        ≠ [] := by
    simpa using hne
  have hilt :
      argminIdx
          (List.map (fun k => faceDistanceSq k probe)
            st.known_face_encodings) <
        st.known_face_encodings.length := by
    simpa using argminIdx_lt _ hdne
  have hgd : ∀ j, j < st.known_face_encodings.length →
      (List.map (fun k => faceDistanceSq k probe)
        st.known_face_encodings).getD j 0 =
        faceDistanceSq (st.known_face_encodings.getD j []) probe :=
    fun j hj => getD_map_of_lt _ _ j hj [] 0
  have hmin : ∀ j, j < st.known_face_encodings.length →
      faceDistanceSq
          (st.known_face_encodings.getD
            (argminIdx (List.map (fun k => faceDistanceSq k probe)
              st.known_face_encodings)) []) probe ≤
        faceDistanceSq (st.known_face_encodings.getD j []) probe := by
    intro j hj
    have h := argminIdx_le
      (List.map (fun k => faceDistanceSq k probe) st.known_face_encodings)
      j (by simpa using hj)
    rwa [hgd _ hilt, hgd _ hj] at h
  have hfirst : ∀ j,
      j < argminIdx (List.map (fun k => faceDistanceSq k probe)
        st.known_face_encodings) →
      faceDistanceSq
          (st.known_face_encodings.getD
            (argminIdx (List.map (fun k => faceDistanceSq k probe)
              st.known_face_encodings)) []) probe <
        faceDistanceSq (st.known_face_encodings.getD j []) probe := by
    intro j hj
    have hj' : j < st.known_face_encodings.length := lt_trans hj hilt
    have h := argminIdx_first
      (List.map (fun k => faceDistanceSq k probe) st.known_face_encodings)
      j hj
    rwa [hgd _ hilt, hgd _ hj'] at h
  obtain ⟨g, hg, hgle⟩ := hclose
  obtain ⟨jg, hjg, hjget⟩ := List.mem_iff_getElem.mp hg
  have hgd2 : st.known_face_encodings.getD jg [] = g := by
    have h1 := getElem?_eq_getD st.known_face_encodings jg hjg ([] : Desc)
    have h2 : st.known_face_encodings[jg]? = some g := by
      rw [List.getElem?_eq_getElem hjg, hjget]
    rw [h2] at h1
    exact (Option.some_inj.mp h1).symm
  have hle_i :
      faceDistanceSq
          (st.known_face_encodings.getD
            (argminIdx (List.map (fun k => faceDistanceSq k probe)
              st.known_face_encodings)) []) probe ≤ (3/5 : ℚ) * (3/5) := by
    refine le_trans ?_ hgle
    have h := hmin jg hjg
    rwa [hgd2] at h
  have hmB : (compareFaces st.known_face_encodings probe (3/5)).getD
      (argminIdx (List.map (fun k => faceDistanceSq k probe)
        st.known_face_encodings)) false = true := by
    rw [compareFaces, getD_map_of_lt _ _ _ hilt [] false]
    exact decide_eq_true ⟨by norm_num, hle_i⟩
  have hnm : st.known_face_names[argminIdx
      (List.map (fun k => faceDistanceSq k probe)
        st.known_face_encodings)]? =
      some (st.known_face_names.getD
        (argminIdx (List.map (fun k => faceDistanceSq k probe)
          st.known_face_encodings)) "Unknown") :=
    getElem?_eq_getD _ _ (by rw [hlen1]; exact hilt) _
  have hid2 : st.known_face_ids[argminIdx
      (List.map (fun k => faceDistanceSq k probe)
        st.known_face_encodings)]? =
      some (st.known_face_ids.getD
        (argminIdx (List.map (fun k => faceDistanceSq k probe)
          st.known_face_encodings)) 0) :=
    getElem?_eq_getD _ _ (by rw [hlen2]; exact hilt) _
  have hra : DBState.record_attendance st.db
      (st.known_face_ids.getD
        (argminIdx (List.map (fun k => faceDistanceSq k probe)
          st.known_face_encodings)) 0) =
      .ok (true, ⟨some { c with attendance := c.attendance ++
        [st.known_face_ids.getD
          (argminIdx (List.map (fun k => faceDistanceSq k probe)
            st.known_face_encodings)) 0] }⟩) := by
    simp [hconn, DBState.record_attendance, ConnState.step, hscript]
  refine ⟨argminIdx (List.map (fun k => faceDistanceSq k probe)
    st.known_face_encodings), hilt, hmin, hfirst, ?_⟩
  have hpos : (List.map (fun k => faceDistanceSq k probe)
      st.known_face_encodings).length > 0 := by
    simpa using List.length_pos.mpr hne
  simp only [recognize_faces, List.map_cons, List.map_nil]
  simp only [recognizeLoop]
  rw [if_pos hpos]
  simp only [hmB, if_true]
  rw [hnm, hid2]
  dsimp only
  rw [hra]

/-- C1 witness: gallery entries `A` at distance 0.1 and `B` at distance
0.5 from the probe, tolerance 0.6: the argmin selection applies, and the
run concretely returns `A` with id 1 (never `B`), appending one
attendance row for id 1. -/
theorem recognize_selects_argmin_witness :
    (∃ i, i < galleryAB.known_face_encodings.length ∧
      (∀ j, j < galleryAB.known_face_encodings.length →
        faceDistanceSq (galleryAB.known_face_encodings.getD i []) [0] ≤
          faceDistanceSq (galleryAB.known_face_encodings.getD j []) [0]) ∧
      (∀ j, j < i →
        faceDistanceSq (galleryAB.known_face_encodings.getD i []) [0] <
          faceDistanceSq (galleryAB.known_face_encodings.getD j []) [0]) ∧
      recognize_faces galleryAB [((0, 0, 0, 0), [0])] =
        .ok ([(0, 0, 0, 0)], [galleryAB.known_face_names.getD i "Unknown"],
          [some (galleryAB.known_face_ids.getD i 0)],
          { galleryAB with db := ⟨some { connEmpty with attendance :=
              connEmpty.attendance ++
                [galleryAB.known_face_ids.getD i 0] }⟩ })) ∧
    recognize_faces galleryAB [((0, 0, 0, 0), [0])] =
      .ok ([(0, 0, 0, 0)], ["A"], [some 1],
        { galleryAB with
            db := ⟨some { connEmpty with attendance := [1] }⟩ }) := by
  constructor
  · exact recognize_selects_argmin galleryAB connEmpty (0, 0, 0, 0) [0]
      rfl rfl (by simp [galleryAB])
      rfl rfl
      ⟨[(1 : ℚ)/10], by simp [galleryAB], by norm_num [faceDistanceSq]⟩
  · norm_num [recognize_faces, recognizeLoop, compareFaces, faceDistanceSq,
      argminIdx, galleryAB, connEmpty, DBState.record_attendance,
      ConnState.step, List.getD_cons_zero, List.getD_cons_succ]

lemma load_known_faces_consistent (st st' : FaceRecognitionSystem)
    (h : load_known_faces st = .ok st') : galleryConsistent st' := by
  unfold load_known_faces at h
  cases hget : st.db.get_all_face_encodings with
  | error e => rw [hget] at h; cases h
  | ok p =>
    obtain ⟨fd, db'⟩ := p
    rw [hget] at h
    cases h
    simp [galleryConsistent]

/-- C9: the three parallel gallery lists (encodings, names, ids) have
equal length after initialization, after every successful load, and after
every `register_new_face` run, whatever its outcome; consequently the
`np.argmin` index over the distance list is in bounds for the name and id
lists whenever the gallery is non-empty. -/
theorem gallery_lists_parallel :
    (∀ db st, FaceRecognitionSystem.init db = .ok st →
        galleryConsistent st) ∧
    (∀ st st', load_known_faces st = .ok st' → galleryConsistent st') ∧
    (∀ st name faces b m st', galleryConsistent st →
        register_new_face st name faces = .ok (b, m, st') →
        galleryConsistent st') ∧
    (∀ st probe, galleryConsistent st → st.known_face_encodings ≠ [] →
        argminIdx (List.map (fun k => faceDistanceSq k probe)
          st.known_face_encodings) < st.known_face_names.length ∧
        argminIdx (List.map (fun k => faceDistanceSq k probe)
          st.known_face_encodings) < st.known_face_ids.length) := by
  refine ⟨?_, load_known_faces_consistent, ?_, ?_⟩
  · intro db st h
    exact load_known_faces_consistent _ _ h
  · intro st name faces b m st' hcons hreg
    rcases faces with _ | ⟨f, rest⟩
    · unfold register_new_face at hreg
      cases hreg
      exact hcons
    rcases rest with _ | ⟨g, rest2⟩
    · unfold register_new_face at hreg
      dsimp only at hreg
      cases hau : st.db.add_user name with
      | error e => rw [hau] at hreg; cases hreg
      | ok p =>
        obtain ⟨uid?, db1⟩ := p
        rw [hau] at hreg
        cases uid? with
        | none =>
          dsimp only at hreg
          cases hreg
          exact hcons
        | some uid =>
          dsimp only at hreg
          by_cases hz : uid ≠ 0
          · rw [if_pos hz] at hreg
            cases hate : db1.add_face_encoding uid f.2 with
            | error e => rw [hate] at hreg; cases hreg
            | ok q =>
              obtain ⟨okb, db2⟩ := q
              rw [hate] at hreg
              cases okb with
              | false =>
                dsimp only at hreg
                cases hreg
                exact hcons
              | true =>
                dsimp only at hreg
                cases hreg
                obtain ⟨h1, h2⟩ := hcons
                constructor
                · simp [h1]
                · simp [h2]
          · rw [if_neg hz] at hreg
            cases hreg
            exact hcons
    · unfold register_new_face at hreg
      cases hreg
      exact hcons
  · intro st probe hcons hne
    have hdne : List.map (fun k => faceDistanceSq k probe)
        st.known_face_encodings ≠ [] := by simpa using hne
    have h := argminIdx_lt _ hdne
    obtain ⟨h1, h2⟩ := hcons
    constructor
    · rw [← h1]; simpa using h
    · rw [← h2]; simpa using h

/-- C9 witness: initializing against a store holding one user "A" with
one persisted descriptor loads a gallery whose three lists all have
length one. -/
theorem gallery_lists_parallel_witness :
    galleryConsistent
      { db := ⟨some { nextUserId := 2, users := [(1, "A")],
                      encodings := [(1, [2])], attendance := [],
                      script := [] }⟩
        known_face_encodings := [[2]]
        known_face_names := ["A"]
        known_face_ids := [1] } :=
  gallery_lists_parallel.1
    ⟨some { nextUserId := 2, users := [(1, "A")], encodings := [(1, [2])],
            attendance := [], script := [] }⟩
    { db := ⟨some { nextUserId := 2, users := [(1, "A")],
                    encodings := [(1, [2])], attendance := [],
                    script := [] }⟩
      known_face_encodings := [[2]]
      known_face_names := ["A"]
      known_face_ids := [1] }
    rfl

lemma recognizeLoop_shape (known : List Desc) (names : List String)
    (ids : List Nat) :
    ∀ (encs : List Desc) (db : DBState) (ns : List String)
      (is : List (Option Nat)) (db' : DBState),
      recognizeLoop known names ids encs db = .ok (ns, is, db') →
      ns.length = encs.length ∧ is.length = encs.length ∧
      ∀ p ∈ ns.zip is, outputOk names ids p
  | [], db, ns, is, db', h => by
    cases h
    simp
  | enc :: rest, db, ns, is, db', h => by
    have ih := recognizeLoop_shape known names ids rest
    simp only [recognizeLoop] at h
    split at h
    · split at h
      · split at h
        · split at h
          · cases h
          · split at h
            · cases h
            · rename_i x1 x2 nm uid hnm hid x3 fst db1 hra x4 ns0 is0 db2 hloop
              cases h
              obtain ⟨l1, l2, hall⟩ := ih _ _ _ _ hloop
              refine ⟨by simp [l1], by simp [l2], ?_⟩
              intro p hp
              rcases List.mem_cons.mp hp with rfl | hp2
              · exact ⟨_, hnm, hid⟩
              · exact hall p hp2
        · cases h
      · split at h
        · cases h
        · rename_i x ns0 is0 db2 hloop
          cases h
          obtain ⟨l1, l2, hall⟩ := ih _ _ _ _ hloop
          refine ⟨by simp [l1], by simp [l2], ?_⟩
          intro p hp
          rcases List.mem_cons.mp hp with rfl | hp2
          · simp [outputOk]
          · exact hall p hp2
    · split at h
      · cases h
      · rename_i x ns0 is0 db2 hloop
        cases h
        obtain ⟨l1, l2, hall⟩ := ih _ _ _ _ hloop
        refine ⟨by simp [l1], by simp [l2], ?_⟩
        intro p hp
        rcases List.mem_cons.mp hp with rfl | hp2
        · simp [outputOk]
        · exact hall p hp2

/-- C10 (amended): for every frame, `recognize_faces` returns one
bounding box per detected face and name/id lists of one element per
detected face; a slot with no id carries the literal name `"Unknown"`,
and a slot with an id carries the name and id of one gallery index (a
successful match always carries both).  The converse — name `"Unknown"`
implies no id — fails when a gallery entry is itself named `"Unknown"`
(see the counterexample). -/
theorem recognize_output_shape (st : FaceRecognitionSystem)
    (faces : List (Loc × Desc)) (locs : List Loc) (ns : List String)
    (is : List (Option Nat)) (st' : FaceRecognitionSystem)
    (h : recognize_faces st faces = .ok (locs, ns, is, st')) :
    locs = faces.map Prod.fst ∧
    ns.length = faces.length ∧ is.length = faces.length ∧
    ∀ p ∈ ns.zip is, outputOk st.known_face_names st.known_face_ids p := by
  unfold recognize_faces at h
  cases hloop : recognizeLoop st.known_face_encodings st.known_face_names
      st.known_face_ids (faces.map Prod.snd) st.db with
  | error e => rw [hloop] at h; cases h
  | ok t =>
    obtain ⟨ns0, is0, db'⟩ := t
    rw [hloop] at h
    cases h
    have hs := recognizeLoop_shape st.known_face_encodings
      st.known_face_names st.known_face_ids (faces.map Prod.snd) st.db
      _ _ _ hloop
    simpa using hs

/-- C10 witness: on the gallery with entries `A`/`B`, a matching probe
yields one name and one id, parallel to the single detected face, and the
filled id slot carries gallery entry 0's name and id. -/
theorem recognize_output_shape_witness :
    [((0 : Nat), (0 : Nat), (0 : Nat), (0 : Nat))] =
      ([(((0 : Nat), (0 : Nat), (0 : Nat), (0 : Nat)), ([0] : Desc))].map
        Prod.fst) ∧
    (["A"] : List String).length =
      [(((0 : Nat), (0 : Nat), (0 : Nat), (0 : Nat)), ([0] : Desc))].length ∧
    ([some 1] : List (Option Nat)).length =
      [(((0 : Nat), (0 : Nat), (0 : Nat), (0 : Nat)), ([0] : Desc))].length ∧
    ∀ p ∈ (["A"].zip [some 1]),
      outputOk galleryAB.known_face_names galleryAB.known_face_ids p :=
  recognize_output_shape galleryAB [((0, 0, 0, 0), [0])] [(0, 0, 0, 0)]
    ["A"] [some 1]
    { galleryAB with db := ⟨some { connEmpty with attendance := [1] }⟩ }
    (by norm_num [recognize_faces, recognizeLoop, compareFaces,
      faceDistanceSq, argminIdx, galleryAB, connEmpty,
      DBState.record_attendance, ConnState.step, List.getD_cons_zero,
      List.getD_cons_succ])

end FaceRec
